import Mathlib

/-!
# Verification of the AI response pipeline (claire)

Shallow embedding of the response-generation core of the repository:

* `src/server/src/services/prompt-templates.ts`  (message-type detection, template selection)
* `src/server/src/services/response-safety.ts`   (safety filter)
* `src/server/src/services/response-cache.ts`    (cache store over redis)
* `src/server/src/services/context-builder.ts`   (conversation context assembly)
* `src/server/src/services/ai-processor.ts`      (response generator)
* the Bull-based message queue orchestrator (`processMessageJob` and friends)

JavaScript strings are modelled as Lean `String` (operating on `String.data`);
numbers holding confidences are modelled as `ℚ`; timestamps are epoch
milliseconds (`Int`/`Nat`).  External collaborators (the OpenAI endpoint,
`JSON.parse` of model output, `Math.random`, wall-clock time) enter as explicit
parameters.  Node's `crypto` SHA-256 and redis key-glob matching are modelled
concretely below so cache keys are fully computable.
-/

namespace Claire

/-! ## JavaScript string primitives

`lowerChar` models `String.prototype.toLowerCase` on the ASCII range (all
strings the code matches case-insensitively are ASCII). `containsSub` models
`String.prototype.includes`, `isPrefixCL` models `startsWith`. -/

def lowerChar (c : Char) : Char :=
  if c.toNat ≥ 65 && c.toNat ≤ 90 then Char.ofNat (c.toNat + 32) else c

def strToLower (s : String) : String := ⟨s.data.map lowerChar⟩

def isPrefixCL : List Char → List Char → Bool
  | [], _ => true
  | _ :: _, [] => false
  | a :: as, b :: bs => a == b && isPrefixCL as bs

def containsSub (needle : List Char) : List Char → Bool
  | [] => needle.isEmpty
  | c :: rest => isPrefixCL needle (c :: rest) || containsSub needle rest

/-- JS `s.includes(sub)`. -/
def strIncludes (s sub : String) : Bool := containsSub sub.data s.data

/-- JS `s.startsWith(pre)`. -/
def strStartsWithJS (s pre : String) : Bool := isPrefixCL pre.data s.data

/-! ## prompt-templates.ts -/

structure PromptTemplate where
  system : String
  user : String
deriving Repr, DecidableEq

inductive ChatType where
  | individual
  | group
deriving Repr, DecidableEq

structure PromptContext where
  messageType : String
  chatType : ChatType
  relationship : Option String
  tone : String
  style : String
  language : String
deriving Repr, DecidableEq

/-- Function detectMessageType from prompt-templates.ts: deterministic ordered rule
evaluation on the lower-cased content. -/
def detectMessageType (content : String) : String :=
  let lc := strToLower content
  -- Question patterns
  if strIncludes lc "?" ||
     strStartsWithJS lc "how " ||
     strStartsWithJS lc "what " ||
     strStartsWithJS lc "when " ||
     strStartsWithJS lc "where " ||
     strStartsWithJS lc "why " ||
     strStartsWithJS lc "who " ||
     strIncludes lc "can you" ||
     strIncludes lc "could you" ||
     strIncludes lc "would you" then "question"
  -- Invitation patterns
  else if strIncludes lc "invite" ||
     strIncludes lc "join us" ||
     strIncludes lc "come to" ||
     strIncludes lc "event" ||
     strIncludes lc "party" ||
     strIncludes lc "dinner" ||
     strIncludes lc "meeting" ||
     strIncludes lc "available" then "invitation"
  -- Appreciation patterns
  else if strIncludes lc "thank" ||
     strIncludes lc "appreciate" ||
     strIncludes lc "grateful" ||
     strIncludes lc "awesome" ||
     strIncludes lc "amazing" ||
     strIncludes lc "great job" ||
     strIncludes lc "well done" then "appreciation"
  -- Concern/support patterns
  else if strIncludes lc "sorry" ||
     strIncludes lc "sad" ||
     strIncludes lc "worried" ||
     strIncludes lc "problem" ||
     strIncludes lc "difficult" ||
     strIncludes lc "help" ||
     strIncludes lc "support" ||
     strIncludes lc "stressed" then "concern"
  -- Business patterns
  else if strIncludes lc "project" ||
     strIncludes lc "deadline" ||
     strIncludes lc "meeting" ||
     strIncludes lc "budget" ||
     strIncludes lc "contract" ||
     strIncludes lc "proposal" ||
     strIncludes lc "client" ||
     strIncludes lc "business" then "business"
  -- Default to social for casual conversation
  else "social"

/-! The eight templates installed by `initializeTemplates`.  The template texts
are the payload strings of the source (JSON example braces rendered with
escapes). -/

def generalTemplate : PromptTemplate :=
  { system := "You are a helpful AI assistant that suggests thoughtful WhatsApp message responses. \n      Consider the conversation context, tone, and relationship when generating suggestions.\n      \n      Guidelines:\n      - Provide 2-3 response suggestions that vary in tone and approach\n      - Keep responses natural and conversational\n      - Match the user's preferred communication style\n      - Consider cultural context and relationship dynamics\n      - Avoid generic or robotic responses\n      \n      Return your response in this JSON format:\n      \x7b\n        \"suggestions\": [\"response1\", \"response2\", \"response3\"],\n        \"confidence\": 0.0-1.0,\n        \"reasoning\": \"brief explanation of suggestions\"\n      \x7d",
    user := "Message received: \"{message}\"\n\n{context}\n\nPlease provide {count} response suggestions that are:\n- Appropriate for a {chatType} conversation\n- Written in a {tone} tone\n- {style} in style\n- In {language} language\n{relationshipContext}" }

def questionTemplate : PromptTemplate :=
  { system := "You are an AI assistant specializing in generating responses to questions in WhatsApp conversations.\n      Focus on providing helpful, accurate, and contextually appropriate answers.\n      \n      Guidelines:\n      - Answer directly and helpfully\n      - Provide multiple response options with different levels of detail\n      - Consider the relationship and context when determining formality\n      - If you don't know something, suggest how they might find out\n      - Offer follow-up questions when appropriate",
    user := "Question received: \"{message}\"\n\n{context}\n\nGenerate responses that answer the question appropriately for this relationship and context." }

def invitationTemplate : PromptTemplate :=
  { system := "You are an AI assistant that helps respond to invitations and event-related messages.\n      Consider the user's likely availability, relationship, and social context.\n      \n      Guidelines:\n      - Provide options for accepting, declining politely, or asking for more details\n      - Consider the relationship when determining response formality\n      - Suggest asking clarifying questions if details are missing\n      - Be gracious and considerate in all suggestions",
    user := "Invitation/event message: \"{message}\"\n\n{context}\n\nSuggest appropriate responses for this invitation, considering the relationship and context." }

def appreciationTemplate : PromptTemplate :=
  { system := "You are an AI assistant that helps respond to compliments, thanks, and appreciation messages.\n      Focus on gracious, humble, and relationship-appropriate responses.\n      \n      Guidelines:\n      - Acknowledge the appreciation gracefully\n      - Avoid being overly modest or overly boastful\n      - Match the energy and tone of the original message\n      - Consider reciprocating when appropriate",
    user := "Appreciation message: \"{message}\"\n\n{context}\n\nSuggest gracious and appropriate responses to this appreciation." }

def concernTemplate : PromptTemplate :=
  { system := "You are an AI assistant that helps respond to messages expressing concern, sadness, or need for support.\n      Focus on empathetic, supportive, and caring responses.\n      \n      Guidelines:\n      - Show genuine empathy and understanding\n      - Offer appropriate support based on the relationship\n      - Avoid minimizing their feelings\n      - Suggest concrete help when appropriate\n      - Keep the focus on them, not yourself",
    user := "Message expressing concern/need for support: \"{message}\"\n\n{context}\n\nGenerate empathetic and supportive responses appropriate for this relationship." }

def businessTemplate : PromptTemplate :=
  { system := "You are an AI assistant that helps with professional and business communications via WhatsApp.\n      Focus on clear, professional, and actionable responses.\n      \n      Guidelines:\n      - Maintain professionalism while being personable\n      - Be clear and direct about business matters\n      - Suggest asking clarifying questions when needed\n      - Include appropriate follow-up actions\n      - Consider time zones and business hours",
    user := "Business/professional message: \"{message}\"\n\n{context}\n\nGenerate professional responses that advance the business relationship or discussion." }

def socialTemplate : PromptTemplate :=
  { system := "You are an AI assistant that helps with casual, social conversations on WhatsApp.\n      Focus on fun, engaging, and relationship-building responses.\n      \n      Guidelines:\n      - Keep the conversation flowing naturally\n      - Show interest in the other person\n      - Share appropriate personal touches\n      - Use humor when suitable\n      - Ask follow-up questions to show engagement",
    user := "Casual message: \"{message}\"\n\n{context}\n\nGenerate engaging responses that build the relationship and keep the conversation flowing." }

def groupTemplate : PromptTemplate :=
  { system := "You are an AI assistant that helps respond in WhatsApp group conversations.\n      Consider group dynamics, multiple participants, and appropriate contribution levels.\n      \n      Guidelines:\n      - Consider the group context and ongoing discussion\n      - Don't dominate the conversation\n      - Reference specific people when appropriate\n      - Add value to the group discussion\n      - Be inclusive and considerate of all members",
    user := "Group message: \"{message}\"\n\n{context}\n\nGenerate responses appropriate for a group chat setting that add value without overwhelming the conversation." }

/-- The templates map built by `initializeTemplates`. -/
def templatesGet (key : String) : Option PromptTemplate :=
  if key = "general" then some generalTemplate
  else if key = "question" then some questionTemplate
  else if key = "invitation" then some invitationTemplate
  else if key = "appreciation" then some appreciationTemplate
  else if key = "concern" then some concernTemplate
  else if key = "business" then some businessTemplate
  else if key = "social" then some socialTemplate
  else if key = "group" then some groupTemplate
  else none

/-- The templateMap object literal inside `getTemplate`. -/
def templateMapAssoc : List (String × String) :=
  [("question", "question"),
   ("invitation", "invitation"),
   ("event", "invitation"),
   ("appreciation", "appreciation"),
   ("thanks", "appreciation"),
   ("compliment", "appreciation"),
   ("concern", "concern"),
   ("support", "concern"),
   ("sadness", "concern"),
   ("business", "business"),
   ("work", "business"),
   ("professional", "business"),
   ("social", "social"),
   ("casual", "social"),
   ("friendly", "social")]

/-- Function getTemplate from prompt-templates.ts.  For group chats the group
template is returned before the message-type mapping is consulted. -/
def getTemplate (messageType : String) (context : PromptContext) : PromptTemplate :=
  if context.chatType = ChatType.group then
    (templatesGet "group").getD ((templatesGet "general").getD ⟨"", ""⟩)
  else
    let templateKey := (templateMapAssoc.lookup messageType).getD "general"
    (templatesGet templateKey).getD ((templatesGet "general").getD ⟨"", ""⟩)

/-! ## context-builder.ts : data model

Structures mirroring the interfaces of context-builder.ts.  Timestamps are
epoch milliseconds. -/

structure ContextMessage where
  id : String
  content : String
  fromMe : Bool
  timestamp : Int
  type : String
deriving Repr, DecidableEq

structure ContactContext where
  name : Option String
  relationship : Option String
  notes : Option String
  inferredName : Option String
  inferredRelationship : Option String
  confidence : Option ℚ
deriving Repr, DecidableEq

structure UserPreferences where
  tone : String
  responseStyle : String
  language : String
  personalityTraits : List String
deriving Repr, DecidableEq

structure ContextMetadata where
  chatType : ChatType
  messageCount : Nat
  averageResponseTime : Option ℚ
  lastInteractionTime : Option Int
  conversationTopic : Option String
deriving Repr, DecidableEq

structure ConversationContext where
  messages : List ContextMessage
  contact : Option ContactContext
  userPreferences : Option UserPreferences
  metadata : ContextMetadata
deriving Repr, DecidableEq

/-- Rows returned by the `calculateAverageResponseTime` query
(select timestamp, from_me). -/
structure DbMessage where
  timestamp : Int
  from_me : Bool
deriving Repr, DecidableEq

/-- The body of the `for (let i = 1; i < messages.length; i++)` loop of
`calculateAverageResponseTime`: gaps for adjacent pairs where the later
message is from the user and the earlier one is not, kept only when
strictly between 0 and 24h (in milliseconds). -/
def responseGaps : List DbMessage → List Int
  | [] => []
  | [_] => []
  | a :: b :: rest =>
      (if b.from_me && !a.from_me then
        let responseTime := b.timestamp - a.timestamp
        if 0 < responseTime && responseTime < 24 * 60 * 60 * 1000 then [responseTime] else []
      else []) ++ responseGaps (b :: rest)

/-- Function calculateAverageResponseTime from context-builder.ts.  The
argument is the chat's stored message rows in ascending timestamp order; the
supabase query `order(timestamp, ascending).limit(20)` keeps the first 20 of
them. -/
def calculateAverageResponseTime (chatMessages : List DbMessage) : Option ℚ :=
  let messages := chatMessages.take 20
  if messages.length < 4 then none
  else
    let responseTimes := responseGaps messages
    if responseTimes.isEmpty then none
    else some ((responseTimes.foldl (fun sum time => sum + (time : ℚ)) 0) / responseTimes.length)

/-- Modelled from the spec wording as amended: scan the first 20
ascending messages; record the gap of every adjacent pair whose earlier
message is not self-sent and whose later message is self-sent; discard gaps
that are not strictly between 0 and 24 hours; return absent when fewer than 4
messages were fetched or no valid gap remains, else the average. -/
def averageResponseTimeSpec (chatMessages : List DbMessage) : Option ℚ :=
  let window := chatMessages.take 20
  let gaps := (window.zip window.tail).filterMap fun p =>
    if p.2.from_me && !p.1.from_me then
      let g := p.2.timestamp - p.1.timestamp
      if 0 < g && g < 86400000 then some g else none
    else none
  if window.length < 4 || gaps.isEmpty then none
  else some ((gaps.foldl (fun sum time => sum + (time : ℚ)) 0) / gaps.length)

/-! ## response-safety.ts : pattern matching

The regex literals of response-safety.ts are modelled as executable scans
over `List Char`.  JS word characters are `[A-Za-z0-9_]`; a `\b` matches
where the wordness of the previous and current character differ (out of
string counts as non-word).  All alternation literals are matched
case-insensitively, as the source patterns carry the `i` flag. -/

def isWordChar (c : Char) : Bool :=
  (97 ≤ c.toNat && c.toNat ≤ 122) || (65 ≤ c.toNat && c.toNat ≤ 90) ||
  (48 ≤ c.toNat && c.toNat ≤ 57) || c == '_'

def isDigitCh (c : Char) : Bool := 48 ≤ c.toNat && c.toNat ≤ 57

def isAlphaCh (c : Char) : Bool :=
  (97 ≤ c.toNat && c.toNat ≤ 122) || (65 ≤ c.toNat && c.toNat ≤ 90)

/-- JS `\s` (the whitespace characters appearing in chat text). -/
def isSpaceJS (c : Char) : Bool :=
  c == ' ' || c == '\t' || c == '\n' || c == '\r' || c.toNat == 11 || c.toNat == 12

/-- Whether the character before the current scan position allows a `\b`
in front of a word character (none, i.e. start of string, counts as
non-word). -/
def prevNonWord : Option Char → Bool
  | none => true
  | some p => !isWordChar p

/-- Match a literal (given lower-case) at the head of the input,
case-insensitively; returns the rest on success. -/
def matchLitCI : List Char → List Char → Option (List Char)
  | [], cs => some cs
  | _ :: _, [] => none
  | l :: ls, c :: cs => if lowerChar c == l then matchLitCI ls cs else none

/-- Match a sequence of literal chunks joined by `\s+` (used for
`personal\s+information` and `credit\s+card`). -/
def matchChunks : List (List Char) → List Char → Option (List Char)
  | [], cs => some cs
  | [ch], cs => matchLitCI ch cs
  | ch :: rest, cs =>
      match matchLitCI ch cs with
      | none => none
      | some cs' =>
          match cs' with
          | [] => none
          | c :: cs'' => if isSpaceJS c then matchChunks rest (cs''.dropWhile isSpaceJS) else none

/-- Does some alternative match here, with the trailing `\b` when `exact`
(all alternation literals end in a word character, so the trailing boundary
means the next character is non-word or the string ends)?  With
`exact = false` the alternative is a stem followed by `\w*\b`, which adds no
constraint beyond the stem itself. -/
def altHitAt (alts : List (List (List Char))) (exact : Bool) (cs : List Char) : Bool :=
  alts.any fun a =>
    match matchChunks a cs with
    | none => false
    | some rest => !exact || (match rest with | [] => true | r :: _ => !isWordChar r)

/-- Scan all positions for a `\b`-anchored alternation hit (all alternation
literals start with a word character, so the leading boundary means the
previous character is non-word or absent). -/
def scanAltHit (alts : List (List (List Char))) (exact : Bool) : Option Char → List Char → Bool
  | _, [] => false
  | prev, c :: cs => (prevNonWord prev && altHitAt alts exact (c :: cs)) || scanAltHit alts exact (some c) cs

/-- A `/\b(w1|w2|...)\b/i` test (literals may contain spaces or hyphens). -/
def exactWordHit (alts : List String) (s : String) : Bool :=
  scanAltHit (alts.map (fun a => [a.data])) true none s.data

/-- A `/\b(w1|w2|...)\w*\b/i` test. -/
def stemWordHit (alts : List String) (s : String) : Bool :=
  scanAltHit (alts.map (fun a => [a.data])) false none s.data

/-- A `\b`-anchored alternation whose alternatives may contain `\s+`
(chunked literals). -/
def chunkedWordHit (alts : List (List String)) (s : String) : Bool :=
  scanAltHit (alts.map (fun a => a.map (·.data))) true none s.data

/-! Numeric and email patterns of `containsPersonalInfo` and the spam
money pattern. -/

/-- Consume exactly n digits. -/
def matchNDigits : Nat → List Char → Option (List Char)
  | 0, cs => some cs
  | _ + 1, [] => none
  | n + 1, c :: cs => if isDigitCh c then matchNDigits n cs else none

/-- Consume an optional single whitespace (`\s?`). -/
def matchOptSpace : List Char → List Char
  | [] => []
  | c :: cs => if isSpaceJS c then cs else c :: cs

/-- After the matched body, a trailing `\b` for a body ending in a word
character: next char is non-word or the string ends. -/
def tailBoundary : List Char → Bool
  | [] => true
  | c :: _ => !isWordChar c

/-- Body of `/\b\d{3}-\d{2}-\d{4}\b/` at the current position. -/
def ssnAt (cs : List Char) : Bool :=
  match matchNDigits 3 cs with
  | some ('-' :: r1) =>
      (match matchNDigits 2 r1 with
       | some ('-' :: r2) =>
           (match matchNDigits 4 r2 with
            | some r3 => tailBoundary r3
            | none => false)
       | _ => false)
  | _ => false

/-- Body of `/\b\d{3}-\d{3}-\d{4}\b/` (phone) at the current position. -/
def phoneAt (cs : List Char) : Bool :=
  match matchNDigits 3 cs with
  | some ('-' :: r1) =>
      (match matchNDigits 3 r1 with
       | some ('-' :: r2) =>
           (match matchNDigits 4 r2 with
            | some r3 => tailBoundary r3
            | none => false)
       | _ => false)
  | _ => false

/-- Body of `/\b\d{4}\s?\d{4}\s?\d{4}\s?\d{4}\b/` (payment card) at the
current position. -/
def cardAt (cs : List Char) : Bool :=
  match matchNDigits 4 cs with
  | none => false
  | some r1 =>
      match matchNDigits 4 (matchOptSpace r1) with
      | none => false
      | some r2 =>
          match matchNDigits 4 (matchOptSpace r2) with
          | none => false
          | some r3 =>
              match matchNDigits 4 (matchOptSpace r3) with
              | none => false
              | some r4 => tailBoundary r4

/-- Scan for a digit-leading pattern behind a `\b` (digits are word
characters, so the leading boundary needs a non-word or absent previous
character). -/
def scanDigitPattern (atP : List Char → Bool) : Option Char → List Char → Bool
  | _, [] => false
  | prev, c :: cs => (prevNonWord prev && atP (c :: cs)) || scanDigitPattern atP (some c) cs

/-- Spam pattern `/\$\d+/`: a dollar sign directly followed by a digit. -/
def dollarScan : List Char → Bool
  | c :: d :: cs => (c == '$' && isDigitCh d) || dollarScan (d :: cs)
  | _ => false

/-- Body of `/\b\d+%\s+off\b/i` at the current position. -/
def percentOffAt (cs : List Char) : Bool :=
  match cs with
  | c :: rest =>
      isDigitCh c &&
      (match rest.dropWhile isDigitCh with
       | '%' :: r2 =>
           (match r2 with
            | c2 :: r3 =>
                isSpaceJS c2 &&
                (match matchLitCI ['o', 'f', 'f'] (r3.dropWhile isSpaceJS) with
                 | some r4 => tailBoundary r4
                 | none => false)
            | [] => false)
       | _ => false)
  | [] => false

/-! Email pattern `/\b[A-Za-z0-9._%+-]+@[A-Za-z0-9.-]+\.[A-Z|a-z]{2,}\b/`.
Matching is existential over start positions and over the split of the
domain around its final dot; the character class `[A-Z|a-z]` literally
contains the bar character. -/

def isLocalCh (c : Char) : Bool :=
  isAlphaCh c || isDigitCh c || c == '.' || c == '_' || c == '%' || c == '+' || c == '-'

def isDomCh (c : Char) : Bool := isAlphaCh c || isDigitCh c || c == '.' || c == '-'

def isTldCh (c : Char) : Bool := isAlphaCh c || c == '|'

/-- After the dot: at least two TLD-class characters followed by a word
boundary (next char non-word, or end of string).  `n` counts characters
consumed so far; the disjunction realises the regex backtracking. -/
def tldGo : Nat → List Char → Bool
  | n, [] => 2 ≤ n
  | n, c :: cs => (2 ≤ n && !isWordChar c) || (isTldCh c && tldGo (n + 1) cs)

/-- After the `@`: at least one domain character, then a dot, then the TLD.
`seen` records whether a domain character has been consumed. -/
def domSearch : Bool → List Char → Bool
  | _, [] => false
  | seen, c :: cs => (seen && c == '.' && tldGo 0 cs) || (isDomCh c && domSearch true cs)

/-- Consume local-part characters until the `@` (at least one local
character precedes it by construction in `emailScan`). -/
def localAfter : List Char → Option (List Char)
  | [] => none
  | c :: cs => if c == '@' then some cs else if isLocalCh c then localAfter cs else none

/-- True word boundary: the wordness of the previous and current character
differ (absent previous char counts as non-word). -/
def wordBoundary (prev : Option Char) (c : Char) : Bool :=
  (match prev with | none => false | some p => isWordChar p) != isWordChar c

def emailScan : Option Char → List Char → Bool
  | _, [] => false
  | prev, c :: cs =>
      (wordBoundary prev c && isLocalCh c &&
        (match localAfter cs with
         | some rest => domSearch false rest
         | none => false)) ||
      emailScan (some c) cs

/-! ## response-safety.ts : the safety filter -/

inductive Severity where
  | low
  | medium
  | high
deriving Repr, DecidableEq

structure SafetyCheck where
  isValid : Bool
  issues : List String
  severity : Severity
deriving Repr, DecidableEq

/-- The four `inappropriatePatterns`; the source loop pushes a single issue
if any pattern matches. -/
def inappropriateHit (s : String) : Bool :=
  stemWordHit ["hate", "violence", "racist", "sexist", "discriminat"] s ||
  exactWordHit ["kill", "murder", "suicide", "self-harm"] s ||
  stemWordHit ["illegal", "drugs", "weapon"] s ||
  chunkedWordHit [["personal", "information"], ["ssn"], ["credit", "card"], ["password"]] s

/-- The three `spamPatterns`. -/
def spamHit (s : String) : Bool :=
  exactWordHit ["click here", "act now", "limited time", "urgent"] s ||
  (dollarScan s.data || scanDigitPattern percentOffAt none s.data) ||
  exactWordHit ["lottery", "winner", "prize", "congratulations"] s

/-- The character class of the third `unprofessionalPatterns` entry as the
bytes stand in the source file (a mojibake rendering of emoji). -/
def emojiClassChars : List Char :=
  [Char.ofNat 0xF8FF, Char.ofNat 0xFC, Char.ofNat 0xF2, Char.ofNat 0xE7,
   Char.ofNat 0xED, Char.ofNat 0xE3, Char.ofNat 0x201A, Char.ofNat 0xF9,
   Char.ofNat 0xA7, Char.ofNat 0xD4, Char.ofNat 0x220F, Char.ofNat 0xE8,
   Char.ofNat 0xEF]

/-- The three `unprofessionalPatterns`. -/
def unprofessionalHit (s : String) : Bool :=
  exactWordHit ["love you", "babe", "honey", "sweetheart"] s ||
  exactWordHit ["drunk", "wasted", "party hard"] s ||
  s.data.any (fun c => emojiClassChars.contains c)

/-- JS `a || b` on optional strings: the empty string is falsy. -/
def jsOrStr (a b : Option String) : Option String :=
  match a with
  | some s => if s = "" then b else some s
  | none => b

def professionalRelationships : List String :=
  ["colleague", "boss", "client", "coworker", "manager", "employee",
   "business", "professional", "work", "corporate"]

/-- Function isProfessionalContext from response-safety.ts. -/
def isProfessionalContext (conversationContext : ConversationContext) : Bool :=
  let relationship :=
    jsOrStr (conversationContext.contact.bind (·.relationship))
            (conversationContext.contact.bind (·.inferredRelationship))
  professionalRelationships.any fun prof =>
    match relationship with
    | some r => strIncludes (strToLower r) prof
    | none => false

/-- Function containsPersonalInfo from response-safety.ts. -/
def containsPersonalInfo (text : String) : Bool :=
  scanDigitPattern ssnAt none text.data ||
  scanDigitPattern cardAt none text.data ||
  emailScan none text.data ||
  scanDigitPattern phoneAt none text.data

/-- Function checkSafety from response-safety.ts (pure: each check appends
its issue in source order, then severity and validity are derived). -/
def checkSafety (suggestion : String) (conversationContext : ConversationContext) : SafetyCheck :=
  let issues :=
    (if inappropriateHit suggestion then ["Inappropriate content detected"] else []) ++
    (if spamHit suggestion then ["Spam-like content detected"] else []) ++
    (if isProfessionalContext conversationContext && unprofessionalHit suggestion then
       ["Unprofessional content for business context"] else []) ++
    (if suggestion.length < 2 then ["Response too short"]
     else if suggestion.length > 500 then ["Response too long"] else []) ++
    (if containsPersonalInfo suggestion then ["Potential personal information disclosure"] else [])
  let severity : Severity :=
    if issues.any (fun issue => strIncludes issue "Inappropriate" || strIncludes issue "personal information") then
      Severity.high
    else if issues.any (fun issue => strIncludes issue "Unprofessional" || strIncludes issue "Spam") then
      Severity.medium
    else Severity.low
  { isValid := issues.isEmpty, issues := issues, severity := severity }

/-! Remediation helpers of response-safety.ts.  The global regex replaces
are modelled as left-to-right scans; a fuel argument (instantiated with the
input length, which bounds the number of scan steps) keeps them structurally
recursive so that proofs can evaluate them. -/

/-- Try the alternatives in order at the current position, requiring the
trailing boundary; on success return the last character of the matched text
(the scan resumes after the match, and `\b` looks back at it) and the rest. -/
def tryWordAlts (alts : List (List Char)) (cs : List Char) : Option (Char × List Char) :=
  match alts with
  | [] => none
  | a :: rest =>
      match matchLitCI a cs with
      | some r =>
          if (match r with | [] => true | c :: _ => !isWordChar c) then
            some (a.getLastD ' ', r)
          else tryWordAlts rest cs
      | none => tryWordAlts rest cs

/-- One pass of `replace(/\b(alt1|alt2|...)\b/gi, repl)`. -/
def replaceWordGo (alts : List (List Char)) (repl : List Char) :
    Nat → Option Char → List Char → List Char
  | 0, _, cs => cs
  | _ + 1, _, [] => []
  | fuel + 1, prev, c :: cs =>
      if prevNonWord prev then
        match tryWordAlts alts (c :: cs) with
        | some (last, rest) => repl ++ replaceWordGo alts repl fuel (some last) rest
        | none => c :: replaceWordGo alts repl fuel (some c) cs
      else c :: replaceWordGo alts repl fuel (some c) cs

def replaceWordAlts (alts : List String) (repl : String) (s : String) : String :=
  ⟨replaceWordGo (alts.map (·.data)) repl.data s.data.length none s.data⟩

/-- One pass of a plain (no `\b`) global case-insensitive replace, used for
`replace(/party hard/gi, ...)`. -/
def replacePlainGo (lit repl : List Char) : Nat → List Char → List Char
  | 0, cs => cs
  | _ + 1, [] => []
  | fuel + 1, c :: cs =>
      match matchLitCI lit (c :: cs) with
      | some rest => repl ++ replacePlainGo lit repl fuel rest
      | none => c :: replacePlainGo lit repl fuel cs

def replacePlainCI (lit repl s : String) : String :=
  ⟨replacePlainGo lit.data repl.data s.data.length s.data⟩

/-- Function makeProfessional from response-safety.ts: the four chained
replaces (the second strips the mojibake character class). -/
def makeProfessional (suggestion : String) : String :=
  let s1 := replaceWordAlts ["love you", "babe", "honey", "sweetheart"] "appreciate you" suggestion
  let s2 : String := ⟨s1.data.filter (fun c => !emojiClassChars.contains c)⟩
  let s3 := replaceWordAlts ["drunk", "wasted"] "busy" s2
  replacePlainCI "party hard" "celebrate" s3

/-- JS `String.prototype.trim` (ASCII whitespace). -/
def strTrim (s : String) : String :=
  ⟨(s.data.dropWhile isSpaceJS).reverse.dropWhile isSpaceJS |>.reverse⟩

def strEndsWithJS (s suf : String) : Bool := isPrefixCL suf.data.reverse s.data.reverse

def isSentSep (c : Char) : Bool := c == '.' || c == '!' || c == '?'

/-- JS `split(/[.!?]+/)`: runs of sentence separators split the string. -/
def splitSentGo : Nat → List Char → List Char → List (List Char)
  | 0, acc, _ => [acc.reverse]
  | _ + 1, acc, [] => [acc.reverse]
  | fuel + 1, acc, c :: cs =>
      if isSentSep c then acc.reverse :: splitSentGo fuel [] (cs.dropWhile isSentSep)
      else splitSentGo fuel (c :: acc) cs

def splitSentences (s : String) : List String :=
  (splitSentGo s.data.length [] s.data).map List.asString

/-- Function shortenResponse from response-safety.ts. -/
def shortenResponse (suggestion : String) : String :=
  if suggestion.length ≤ 100 then suggestion
  else
    let sentences := splitSentences suggestion
    let first := sentences.headD ""
    strTrim first ++ (if strEndsWithJS first "." then "" else ".")

/-- The `expansions` object literal of expandResponse. -/
def expansionsLookup (lower : String) : Option String :=
  if lower = "ok" then some "Okay, sounds good!"
  else if lower = "yes" then some "Yes, that works for me."
  else if lower = "no" then some "No, I don't think so."
  else if lower = "thanks" then some "Thank you for letting me know."
  else if lower = "sure" then some "Sure, that sounds fine."
  else none

/-- Function expandResponse from response-safety.ts (the context parameter
is unused by the source body). -/
def expandResponse (suggestion : String) (_conversationContext : ConversationContext) : String :=
  if suggestion.length ≥ 10 then suggestion
  else
    let lower := strTrim (strToLower suggestion)
    (expansionsLookup lower).getD (suggestion ++ ". Thanks for sharing that with me.")

/-- Collapse whitespace runs to a single space (`replace(/\s+/g, ' ')`). -/
def collapseWSGo : Nat → List Char → List Char
  | 0, cs => cs
  | _ + 1, [] => []
  | fuel + 1, c :: cs =>
      if isSpaceJS c then ' ' :: collapseWSGo fuel (cs.dropWhile isSpaceJS)
      else c :: collapseWSGo fuel cs

/-- Characters kept by `replace(/[^\w\s.,!?-]/g, '')`. -/
def isCleanKept (c : Char) : Bool :=
  isWordChar c || isSpaceJS c || c == '.' || c == ',' || c == '!' || c == '?' || c == '-'

/-- Function cleanupResponse from response-safety.ts. -/
def cleanupResponse (suggestion : String) : String :=
  strTrim ⟨(collapseWSGo suggestion.data.length suggestion.data).filter isCleanKept⟩

/-- Function createSafeAlternative from response-safety.ts: dispatch on the
first detected issue (`safetyCheck.issues[0]`). -/
def createSafeAlternative (originalSuggestion : String) (safetyCheck : SafetyCheck)
    (conversationContext : ConversationContext) : Option String :=
  let issue := safetyCheck.issues.headD ""
  if strIncludes issue "Unprofessional" then some (makeProfessional originalSuggestion)
  else if strIncludes issue "too long" then some (shortenResponse originalSuggestion)
  else if strIncludes issue "too short" then some (expandResponse originalSuggestion conversationContext)
  else if safetyCheck.severity = Severity.high then none
  else some (cleanupResponse originalSuggestion)

def professionalFallbacks : List String :=
  ["Thank you for your message.",
   "I understand. Let me get back to you on this.",
   "Thanks for the information."]

def casualFallbacks : List String :=
  ["Thanks for letting me know!",
   "I understand.",
   "Got it, thanks for sharing."]

/-- Function getFallbackResponse from response-safety.ts.
`Math.floor(Math.random() * fallbacks.length)` is modelled by the explicit
random index `rand % fallbacks.length`. -/
def getFallbackResponse (conversationContext : ConversationContext) (rand : Nat) : String :=
  let fallbacks :=
    if isProfessionalContext conversationContext then professionalFallbacks else casualFallbacks
  fallbacks.getD (rand % fallbacks.length) ""

/-! ## ai-processor.ts / response-safety.ts : response objects

One structure serves both the `AIResponse` interface of ai-processor.ts and
the `FilteredResponse` interface of response-safety.ts (the TS objects are
structural; `safetyIssues` is only set by the safety filter and `cached`
only by the cache-hit path). -/

structure AIResponse where
  messageId : String
  suggestions : List String
  confidence : ℚ
  reasoning : Option String
  messageType : Option String
  safetyIssues : Option (List String) := none
  cached : Bool := false
deriving Repr, DecidableEq

/-- JS `confidence || 0.7` (zero is falsy). -/
def jsConfOr (c : ℚ) (d : ℚ) : ℚ := if c = 0 then d else c

/-- The per-suggestion loop of validateAndFilter: returns the filtered
suggestions and the accumulated safety issues, in source order. -/
def filterSuggestions (conversationContext : ConversationContext) :
    List String → List String × List String
  | [] => ([], [])
  | suggestion :: rest =>
      let safetyCheck := checkSafety suggestion conversationContext
      let (fs, is) := filterSuggestions conversationContext rest
      if safetyCheck.isValid then (suggestion :: fs, is)
      else
        match createSafeAlternative suggestion safetyCheck conversationContext with
        | some safeSuggestion => (safeSuggestion :: fs, safetyCheck.issues ++ is)
        | none => (fs, safetyCheck.issues ++ is)

/-- Function validateAndFilter from response-safety.ts (its internal
try/catch cannot fire in this pure model). -/
def validateAndFilter (response : AIResponse) (conversationContext : ConversationContext)
    (rand : Nat) : AIResponse :=
  let (filteredSuggestions, safetyIssues) :=
    filterSuggestions conversationContext response.suggestions
  let finalSuggestions :=
    if filteredSuggestions.isEmpty then [getFallbackResponse conversationContext rand]
    else filteredSuggestions
  let adjustedConfidence :=
    let base := jsConfOr response.confidence (7/10)
    if safetyIssues.length > 0 then max (base * (7/10)) (3/10) else base
  { messageId := response.messageId,
    suggestions := finalSuggestions,
    confidence := adjustedConfidence,
    reasoning := response.reasoning,
    messageType := response.messageType,
    safetyIssues := if safetyIssues.length > 0 then some safetyIssues else none,
    cached := false }

/-! ## response-cache.ts : SHA-256 fingerprint

`generateCacheKey` hashes `content:userId` with node's
`crypto.createHash('sha256').update(...).digest('hex')` and keeps the first
16 hex characters.  The hash (an external library call) is modelled by a
concrete SHA-256 over the UTF-8 bytes of the input, so keys are fully
computable.  32-bit words are `Nat` reduced mod 2^32. -/

def w32 (n : Nat) : Nat := n % 4294967296

def rotr32 (k x : Nat) : Nat := w32 ((x >>> k) ||| (x <<< (32 - k)))

def bigSigma0 (x : Nat) : Nat := rotr32 2 x ^^^ rotr32 13 x ^^^ rotr32 22 x

def bigSigma1 (x : Nat) : Nat := rotr32 6 x ^^^ rotr32 11 x ^^^ rotr32 25 x

def smallSigma0 (x : Nat) : Nat := rotr32 7 x ^^^ rotr32 18 x ^^^ (x >>> 3)

def smallSigma1 (x : Nat) : Nat := rotr32 17 x ^^^ rotr32 19 x ^^^ (x >>> 10)

def chFun (x y z : Nat) : Nat := (x &&& y) ^^^ ((x ^^^ 4294967295) &&& z)

def majFun (x y z : Nat) : Nat := (x &&& y) ^^^ (x &&& z) ^^^ (y &&& z)

def sha256K : List Nat :=
  [1116352408, 1899447441, 3049323471, 3921009573, 961987163, 1508970993,
   2453635748, 2870763221, 3624381080, 310598401, 607225278, 1426881987,
   1925078388, 2162078206, 2614888103, 3248222580, 3835390401, 4022224774,
   264347078, 604807628, 770255983, 1249150122, 1555081692, 1996064986,
   2554220882, 2821834349, 2952996808, 3210313671, 3336571891, 3584528711,
   113926993, 338241895, 666307205, 773529912, 1294757372, 1396182291,
   1695183700, 1986661051, 2177026350, 2456956037, 2730485921, 2820302411,
   3259730800, 3345764771, 3516065817, 3600352804, 4094571909, 275423344,
   430227734, 506948616, 659060556, 883997877, 958139571, 1322822218,
   1537002063, 1747873779, 1955562222, 2024104815, 2227730452, 2361852424,
   2428436474, 2756734187, 3204031479, 3329325298]

def sha256H0 : List Nat :=
  [1779033703, 3144134277, 1013904242, 2773480762, 1359893119, 2600822924, 528734635, 1541459225]

/-- UTF-8 encoding of a character. -/
def utf8Char (c : Char) : List Nat :=
  let n := c.toNat
  if n < 0x80 then [n]
  else if n < 0x800 then [0xC0 ||| (n >>> 6), 0x80 ||| (n &&& 0x3F)]
  else if n < 0x10000 then
    [0xE0 ||| (n >>> 12), 0x80 ||| ((n >>> 6) &&& 0x3F), 0x80 ||| (n &&& 0x3F)]
  else
    [0xF0 ||| (n >>> 18), 0x80 ||| ((n >>> 12) &&& 0x3F),
     0x80 ||| ((n >>> 6) &&& 0x3F), 0x80 ||| (n &&& 0x3F)]

def utf8Bytes (s : String) : List Nat := (s.data.map utf8Char).flatten

/-- Big-endian bytes of an 8-byte (64-bit) value. -/
def beBytes8 (n : Nat) : List Nat :=
  (List.range 8).map fun i => (n >>> ((7 - i) * 8)) &&& 255

/-- SHA-256 padding: 0x80, zeros to 56 mod 64, then the bit length. -/
def padMessage (bytes : List Nat) : List Nat :=
  let len := bytes.length
  let padZeros := (120 - (len + 1) % 64) % 64
  bytes ++ [0x80] ++ List.replicate padZeros 0 ++ beBytes8 (len * 8)

/-- Split into 64-byte blocks (fuel keeps the recursion structural). -/
def chunk64Go : Nat → List Nat → List (List Nat)
  | 0, _ => []
  | _, [] => []
  | fuel + 1, l => l.take 64 :: chunk64Go fuel (l.drop 64)

def chunk64 (l : List Nat) : List (List Nat) := chunk64Go l.length l

/-- The 16 initial 32-bit words of a block, big-endian. -/
def blockWords (block : List Nat) : List Nat :=
  (List.range 16).map fun i =>
    (block.getD (4 * i) 0 <<< 24) ||| (block.getD (4 * i + 1) 0 <<< 16) |||
    (block.getD (4 * i + 2) 0 <<< 8) ||| block.getD (4 * i + 3) 0

/-- Extend the message schedule to 64 words. -/
def schedule (ws : List Nat) : List Nat :=
  (List.range 48).foldl
    (fun ws _ =>
      let n := ws.length
      ws ++ [w32 (smallSigma1 (ws.getD (n - 2) 0) + ws.getD (n - 7) 0 +
                  smallSigma0 (ws.getD (n - 15) 0) + ws.getD (n - 16) 0)])
    ws

/-- One SHA-256 round on the state `[a,b,c,d,e,f,g,h]`. -/
def roundStep (state : List Nat) (kw : Nat × Nat) : List Nat :=
  match state with
  | [a, b, c, d, e, f, g, h] =>
      let t1 := w32 (h + bigSigma1 e + chFun e f g + kw.1 + kw.2)
      let t2 := w32 (bigSigma0 a + majFun a b c)
      [w32 (t1 + t2), a, b, c, w32 (d + t1), e, f, g]
  | s => s

def compressBlock (h : List Nat) (block : List Nat) : List Nat :=
  let ws := schedule (blockWords block)
  let st := (sha256K.zip ws).foldl roundStep h
  (h.zip st).map fun p => w32 (p.1 + p.2)

def hexAlphabet : List Char := "0123456789abcdef".data

def hexOfByte (b : Nat) : List Char :=
  [hexAlphabet.getD (b / 16 % 16) '0', hexAlphabet.getD (b % 16) '0']

/-- Hex digest of the final state words. -/
def digestHex (h : List Nat) : List Char :=
  (h.map fun word =>
    hexOfByte ((word >>> 24) &&& 255) ++ hexOfByte ((word >>> 16) &&& 255) ++
    hexOfByte ((word >>> 8) &&& 255) ++ hexOfByte (word &&& 255)).flatten

/-- Models `crypto.createHash('sha256').update(s).digest('hex')`. -/
def sha256hex (s : String) : String :=
  ⟨digestHex ((chunk64 (padMessage (utf8Bytes s))).foldl compressBlock sha256H0)⟩

/-! ## response-cache.ts : redis model and cache operations

Redis is modelled as an association list from keys to entries; `setex`
overwrites, `keys` filters by the redis glob (`*`, `?` and literal
characters — the only forms the source patterns use).  JSON serialisation
round-trips are the identity. -/

/-- Redis glob matching with explicit fuel (`|pattern| + |string| + 1`
steps always suffice, since every recursive call shortens one of the two). -/
def globMatchGo : Nat → List Char → List Char → Bool
  | 0, _, _ => false
  | _ + 1, [], s => s.isEmpty
  | fuel + 1, p :: ps, s =>
      if p == '*' then
        match s with
        | [] => globMatchGo fuel ps []
        | c :: cs => globMatchGo fuel ps (c :: cs) || globMatchGo fuel (p :: ps) cs
      else
        match s with
        | [] => false
        | c :: cs => (p == '?' || p == c) && globMatchGo fuel ps cs

def globMatch (pattern str : String) : Bool :=
  globMatchGo (pattern.data.length + str.data.length + 1) pattern.data str.data

structure CachedResponse where
  suggestions : List String
  confidence : ℚ
  reasoning : Option String
  messageType : Option String
  timestamp : Nat
  ttl : Nat
deriving Repr, DecidableEq

/-- The response argument of `ResponseCache.set`. -/
structure CacheSetReq where
  suggestions : List String
  confidence : ℚ
  reasoning : Option String
  messageType : Option String
deriving Repr, DecidableEq

structure RedisEntry where
  value : CachedResponse
  expireAtMs : Nat
deriving Repr, DecidableEq

abbrev RedisStore := List (String × RedisEntry)

def removeKey (st : RedisStore) (key : String) : RedisStore :=
  st.filter fun kv => kv.1 ≠ key

def redisSetex (st : RedisStore) (key : String) (ttlSeconds : Nat) (value : CachedResponse)
    (nowMs : Nat) : RedisStore :=
  (key, { value := value, expireAtMs := nowMs + ttlSeconds * 1000 }) :: removeKey st key

def redisGet (st : RedisStore) (key : String) (nowMs : Nat) : Option CachedResponse :=
  (st.lookup key).bind fun e => if nowMs < e.expireAtMs then some e.value else none

def redisDel (st : RedisStore) (keys : List String) : RedisStore :=
  st.filter fun kv => !keys.contains kv.1

def redisKeys (st : RedisStore) (pattern : String) : List String :=
  (st.map Prod.fst).filter fun k => globMatch pattern k

namespace ResponseCache

def defaultTTL : Nat := 3600

def keyPrefix : String := "ai_response:"

/-- Function generateCacheKey from response-cache.ts: first 16 hex chars of
the SHA-256 of `content:userId`, behind the key prefix. -/
def generateCacheKey (content userId : String) : String :=
  keyPrefix ++ ⟨(sha256hex (content ++ ":" ++ userId)).data.take 16⟩

/-- Function get from response-cache.ts: redis lookup, then the lazy
entry-level expiry check (stale entries are deleted). -/
def get (content userId : String) (nowMs : Nat) (st : RedisStore) :
    Option CachedResponse × RedisStore :=
  let key := generateCacheKey content userId
  match redisGet st key nowMs with
  | none => (none, st)
  | some response =>
      if nowMs - response.timestamp > response.ttl * 1000 then (none, removeKey st key)
      else (some response, st)

/-- Function set from response-cache.ts.  JS `ttl || this.defaultTTL`: an
absent or zero ttl falls back to the default. -/
def set (content userId : String) (response : CacheSetReq) (ttl : Option Nat)
    (nowMs : Nat) (st : RedisStore) : RedisStore :=
  let key := generateCacheKey content userId
  let t := match ttl with
    | some v => if v = 0 then defaultTTL else v
    | none => defaultTTL
  let cacheData : CachedResponse :=
    { suggestions := response.suggestions, confidence := response.confidence,
      reasoning := response.reasoning, messageType := response.messageType,
      timestamp := nowMs, ttl := t }
  redisSetex st key t cacheData nowMs

/-- Function clearUserCache from response-cache.ts: a key-pattern scan for
`ai_response:*userId*`, deleting the matches. -/
def clearUserCache (userId : String) (st : RedisStore) : RedisStore :=
  let pattern := keyPrefix ++ "*" ++ userId ++ "*"
  let keys := redisKeys st pattern
  if keys.length > 0 then redisDel st keys else st

/-- Function calculateTTL from response-cache.ts. -/
def calculateTTL (confidence : ℚ) : Nat :=
  if confidence ≥ 9/10 then defaultTTL * 4
  else if confidence ≥ 7/10 then defaultTTL * 2
  else if confidence ≥ 1/2 then defaultTTL
  else defaultTTL / 2

/-- Function setWithConfidenceTTL from response-cache.ts. -/
def setWithConfidenceTTL (content userId : String) (response : CacheSetReq)
    (nowMs : Nat) (st : RedisStore) : RedisStore :=
  set content userId response (some (calculateTTL response.confidence)) nowMs st

end ResponseCache

/-! ## Message queue orchestrator (message-queue service)

`processMessageJob` is pure apart from enqueueing sub-jobs; it is modelled
as a function from the job payload to its return value plus the list of
sub-jobs handed to the per-type queues. -/

structure MessageJobData where
  messageId : String
  content : String
  fromMe : Bool
  timestamp : Int
  chatType : String
  contactId : Option String
deriving Repr, DecidableEq

inductive SubJob where
  | aiResponse (messageId content chatType : String)
  | promiseDetection (messageId content : String) (fromMe : Bool)
  | contactInference (contactId messageContent : String)
deriving Repr, DecidableEq

structure ProcessMessageResult where
  processed : Bool
  reason : Option String
  subJobs : Option Nat
deriving Repr, DecidableEq

/-- Function processMessageJob from the message-queue service.  The JS
guard `data.contactId && !data.fromMe` treats an absent or empty contact id
as falsy. -/
def processMessageJob (data : MessageJobData) : ProcessMessageResult × List SubJob :=
  if data.fromMe then
    ({ processed := false, reason := some "self_message", subJobs := none }, [])
  else
    let jobs :=
      (if !data.fromMe then [SubJob.aiResponse data.messageId data.content data.chatType] else []) ++
      [SubJob.promiseDetection data.messageId data.content data.fromMe] ++
      (match data.contactId with
       | some cid => if cid ≠ "" && !data.fromMe then [SubJob.contactInference cid data.content] else []
       | none => [])
    ({ processed := true, reason := none, subJobs := some jobs.length }, jobs)

/-! ## ai-processor.ts : response generation

The model endpoint and `JSON.parse` of its output are external: a
`ModelOutcome` is either a thrown invocation error or a completion whose
JSON-parse result is a `ParseOutcome` (`err` for malformed JSON, otherwise
the fields of the parsed object; `none` marks an absent field, and an
empty `suggestions` array is truthy in JS and therefore kept). -/

inductive ParseOutcome where
  | err
  | ok (suggestions : Option (List String)) (confidence : Option ℚ) (reasoning : Option String)
deriving Repr, DecidableEq

inductive ModelOutcome where
  | fail
  | ok (parsed : ParseOutcome) (chunks : List String)
deriving Repr, DecidableEq

/-- Events delivered to a streaming sink. -/
inductive SinkEvent where
  | token (delta : String)
  | complete (result : AIResponse)
  | error
deriving Repr, DecidableEq

/-- Function parseAIResponse from ai-processor.ts.  `parsed.confidence ||
0.7` treats zero as falsy; the result is clamped into [0,1]. -/
def parseAIResponse (parsed : ParseOutcome) (messageId messageType : String) : AIResponse :=
  match parsed with
  | ParseOutcome.err =>
      { messageId := messageId,
        suggestions := ["I understand.", "Thanks for sharing that with me."],
        confidence := 1/2,
        reasoning := some "Fallback response due to parsing error",
        messageType := some messageType }
  | ParseOutcome.ok sugg conf reas =>
      { messageId := messageId,
        suggestions := sugg.getD ["I understand.", "Thanks for letting me know."],
        confidence := min (max (jsConfOr (conf.getD 0) (7/10)) 0) 1,
        reasoning := reas,
        messageType := some messageType }

/-- Function generateWithStreaming from ai-processor.ts, given a successful
model completion.  In streaming mode (an `onToken` callback is present)
non-empty deltas are forwarded and `onComplete` receives the parse result;
in batch mode no sink calls are made here. -/
def generateWithStreaming (messageId messageType : String) (hasOnToken : Bool)
    (parsed : ParseOutcome) (chunks : List String) : AIResponse × List SinkEvent :=
  if hasOnToken then
    let tokenEvents := (chunks.filter (fun delta => delta ≠ "")).map SinkEvent.token
    let result := parseAIResponse parsed messageId messageType
    (result, tokenEvents ++ [SinkEvent.complete result])
  else
    (parseAIResponse parsed messageId messageType, [])

deriving instance DecidableEq for Except

structure GenOutput where
  result : Except Unit AIResponse
  events : List SinkEvent
  store : RedisStore
deriving Repr, DecidableEq

def toCacheReq (r : AIResponse) : CacheSetReq :=
  { suggestions := r.suggestions, confidence := r.confidence,
    reasoning := r.reasoning, messageType := r.messageType }

/-- Function generateResponse from ai-processor.ts.  `sinkPresent` states
whether a streaming callback object was supplied at all and `hasOnToken`
whether it carries an `onToken` member; `ctx` is the context assembled by
the context builder (an external fetch), `rand` feeds the fallback picker
and `nowMs`/`st` thread wall-clock time and the redis state.  On a cache
hit the cached value is returned with `cached := true` and `onComplete`
fires; on a model invocation failure `onError` fires and the error is
rethrown; otherwise the parsed result passes through the safety filter and
is cached with no explicit TTL.  Prompt construction and the analytics
record do not affect any modelled output and are omitted. -/
def generateResponse (messageId content userId : String) (_chatType : ChatType)
    (sinkPresent hasOnToken : Bool) (model : ModelOutcome)
    (ctx : ConversationContext) (rand : Nat) (nowMs : Nat) (st : RedisStore) : GenOutput :=
  let got := ResponseCache.get content userId nowMs st
  match got.1 with
  | some cachedResponse =>
      let response : AIResponse :=
        { messageId := messageId, suggestions := cachedResponse.suggestions,
          confidence := cachedResponse.confidence, reasoning := cachedResponse.reasoning,
          messageType := cachedResponse.messageType, cached := true }
      { result := Except.ok response,
        events := if sinkPresent then [SinkEvent.complete response] else [],
        store := got.2 }
  | none =>
      let messageType := detectMessageType content
      match model with
      | ModelOutcome.fail =>
          { result := Except.error (),
            events := if sinkPresent then [SinkEvent.error] else [],
            store := got.2 }
      | ModelOutcome.ok parsed chunks =>
          let pair := generateWithStreaming messageId messageType (sinkPresent && hasOnToken) parsed chunks
          let safeResponse := validateAndFilter pair.1 ctx rand
          { result := Except.ok safeResponse,
            events := pair.2,
            store := ResponseCache.set content userId (toCacheReq safeResponse) none nowMs got.2 }

/-! Event counting helpers for the streaming contract. -/

def completesOf (events : List SinkEvent) : List AIResponse :=
  events.filterMap fun e => match e with | SinkEvent.complete r => some r | _ => none

def errorCount (events : List SinkEvent) : Nat :=
  events.countP fun e => match e with | SinkEvent.error => true | _ => false

/-! ## Concrete instances used by the theorems below -/

def emptyMetadata : ContextMetadata :=
  { chatType := ChatType.individual, messageCount := 0, averageResponseTime := none,
    lastInteractionTime := none, conversationTopic := none }

/-- The minimal context `buildContext` falls back to on error. -/
def emptyContext : ConversationContext :=
  { messages := [], contact := none, userPreferences := none, metadata := emptyMetadata }

def colleagueContact : ContactContext :=
  { name := none, relationship := some "colleague", notes := none,
    inferredName := none, inferredRelationship := none, confidence := none }

/-- A context whose contact relationship is professional. -/
def professionalContext : ConversationContext :=
  { messages := [], contact := some colleagueContact, userPreferences := none,
    metadata := emptyMetadata }

def c5Req : CacheSetReq :=
  { suggestions := ["Hi there!"], confidence := 4/5, reasoning := none, messageType := some "social" }

/-- A store holding one entry written for ("hello", "user-1") at time
1000ms. -/
def c5Store : RedisStore := ResponseCache.set "hello" "user-1" c5Req none 1000 []

/-- Invariant: every cached entry has at least one suggestion. -/
def storeNonEmptySugg (st : RedisStore) : Prop :=
  ∀ kv ∈ st, 1 ≤ kv.2.value.suggestions.length

def c6Response : AIResponse :=
  { messageId := "m1", suggestions := ["You should kill"], confidence := 4/5,
    reasoning := none, messageType := some "social" }

def c4Parse : ParseOutcome := ParseOutcome.ok (some ["You should kill"]) (some (4/5)) none

/-! ## Theorems -/

/-- C1: the claim says a fromSelf=true message job enqueues a
promise-detection job (while suppressing response generation).  The code
returns `{processed:false, reason:'self_message'}` before creating any
sub-job, so a self message enqueues nothing at all — the fromMe-aware
promise-detection call below the early return is dead code.  This theorem
evaluates `processMessageJob` at the failing input. -/
theorem claim_C1_self_message_enqueues_nothing :
    processMessageJob
      { messageId := "m1", content := "I will pay you back tomorrow", fromMe := true,
        timestamp := 0, chatType := "individual", contactId := some "c1" } =
      ({ processed := false, reason := some "self_message", subJobs := none }, []) := rfl

/-- C8: for a group chat, `getTemplate` returns the group template whatever
the detected message type was. -/
theorem claim_C8_group_template_override :
    ∀ (messageType : String) (context : PromptContext),
      context.chatType = ChatType.group → getTemplate messageType context = groupTemplate := by
  intro messageType context h
  simp [getTemplate, h, templatesGet]

/-- Witness for C8 at a concrete message type and context. -/
theorem claim_C8_witness :
    getTemplate "business"
      { messageType := "business", chatType := ChatType.group, relationship := none,
        tone := "professional", style := "concise", language := "en" } = groupTemplate :=
  claim_C8_group_template_override "business" _ rfl

/-- C9: the question rule precedes every other rule, so
"Can you send the report by Friday?" (which contains a question marker) is
classified `question`, not `business`. -/
theorem claim_C9_question_precedence :
    detectMessageType "Can you send the report by Friday?" = "question" := by decide

/-- The index loop of calculateAverageResponseTime equals a
zip-with-tail pass over adjacent pairs. -/
theorem responseGaps_eq_zip (l : List DbMessage) :
    responseGaps l = (l.zip l.tail).filterMap (fun p =>
      if p.2.from_me && !p.1.from_me then
        let g := p.2.timestamp - p.1.timestamp
        if 0 < g && g < 86400000 then some g else none
      else none) := by
  induction l with
  | nil => rfl
  | cons a t ih =>
    cases t with
    | nil => rfl
    | cons b r =>
      simp only [responseGaps, List.tail_cons, List.zip_cons_cons, List.filterMap_cons]
      rw [ih]
      by_cases h1 : b.from_me && !a.from_me
      · by_cases h2 : a.timestamp < b.timestamp ∧ b.timestamp - a.timestamp < 86400000
        · simp [h1, h2]
        · simp [h1, h2]
      · simp [h1]

/-- Guard-fusion shape shared by the two average formulations. -/
theorem ite_none_or {α : Type} (p : Prop) [Decidable p] (e : Bool) (x : Option α) :
    (if p then none else if e = true then none else x) =
      (if (decide p || e) = true then none else x) := by
  by_cases hp : p <;> cases e <;> simp [hp]

/-- C7 (amended): the source latency computation agrees with the amended
description — it scans the first 20 ascending messages (the query is
ascending with limit 20), records the gap of every adjacent
non-self-then-self pair, discards gaps outside (0, 24h), and returns absent
when fewer than 4 messages were fetched or no valid gap remains — not when
"fewer than 2 valid gaps" exist as the claim stated. -/
theorem claim_C7_avg_matches_spec :
    ∀ chatMessages,
      calculateAverageResponseTime chatMessages = averageResponseTimeSpec chatMessages := by
  intro l
  unfold calculateAverageResponseTime averageResponseTimeSpec
  simp only [responseGaps_eq_zip]
  exact ite_none_or _ _ _

/-- C7 counterexample: four messages with exactly one valid response gap.
The claim as stated demands an absent result (fewer than 2 valid gaps); the
code returns the single gap as the average. -/
theorem claim_C7_counterexample :
    responseGaps [⟨0, false⟩, ⟨1000, true⟩, ⟨2000, false⟩, ⟨3000, false⟩] = [1000] ∧
    calculateAverageResponseTime [⟨0, false⟩, ⟨1000, true⟩, ⟨2000, false⟩, ⟨3000, false⟩] =
      some 1000 := by
  have hg : responseGaps
      [(⟨0, false⟩ : DbMessage), ⟨1000, true⟩, ⟨2000, false⟩, ⟨3000, false⟩] = [1000] := by
    decide
  refine ⟨hg, ?_⟩
  simp [calculateAverageResponseTime, hg]

/-- C3 (amended): `set` without an explicit TTL always stores the base TTL
of 3600 seconds, whatever the value's confidence; the confidence step
function of the spec is implemented by `calculateTTL` (shown here to match
the spec's step values and to be monotone) but only `setWithConfidenceTTL`
applies it, and the cache write of `generateResponse` passes no TTL, so the
entries it stores carry TTL 3600. -/
theorem claim_C3_ttl :
    (∀ content userId req nowMs st,
       ResponseCache.set content userId req none nowMs st =
         (ResponseCache.generateCacheKey content userId,
          { value := { suggestions := req.suggestions, confidence := req.confidence,
                       reasoning := req.reasoning, messageType := req.messageType,
                       timestamp := nowMs, ttl := 3600 },
            expireAtMs := nowMs + 3600 * 1000 }) ::
           removeKey st (ResponseCache.generateCacheKey content userId)) ∧
    (∀ confidence : ℚ, ResponseCache.calculateTTL confidence =
       if confidence ≥ 9/10 then 4 * 3600
       else if confidence ≥ 7/10 then 2 * 3600
       else if confidence ≥ 1/2 then 3600
       else 3600 / 2) ∧
    (∀ c₁ c₂ : ℚ, c₁ ≤ c₂ → ResponseCache.calculateTTL c₁ ≤ ResponseCache.calculateTTL c₂) ∧
    (∀ messageId content userId ct parsed chunks ctx rand nowMs,
       (generateResponse messageId content userId ct false false
          (ModelOutcome.ok parsed chunks) ctx rand nowMs []).store.map
            (fun kv => kv.2.value.ttl) = [3600]) := by
  refine ⟨fun content userId req nowMs st => rfl, fun c => rfl, ?_,
          fun _ _ _ _ _ _ _ _ _ => rfl⟩
  intro c1 c2 h
  unfold ResponseCache.calculateTTL ResponseCache.defaultTTL
  split_ifs
  all_goals (try norm_num)
  all_goals (exfalso; linarith)

/-- C3 counterexample: a set call without TTL for a value of confidence
0.95 stores TTL 3600, not the 4x value 14400 the claimed step function
requires. -/
theorem claim_C3_counterexample :
    (ResponseCache.set "c" "u"
        { suggestions := ["ok, done"], confidence := 19/20, reasoning := none, messageType := none }
        none 0 []).map (fun kv => kv.2.value.ttl) = [3600] ∧
    ResponseCache.calculateTTL (19/20) = 14400 ∧ (3600 : Nat) ≠ 14400 := by
  refine ⟨rfl, ?_, by decide⟩
  norm_num [ResponseCache.calculateTTL, ResponseCache.defaultTTL]

/-- Witness for C3 discharging the monotonicity hypothesis at concrete
confidences. -/
theorem claim_C3_witness :
    ResponseCache.calculateTTL (3/5) ≤ ResponseCache.calculateTTL (19/20) :=
  claim_C3_ttl.2.2.1 (3/5) (19/20) (by norm_num)

set_option maxRecDepth 100000 in
/-- C5: the claim says `clearUserCache userId` removes every entry stored
for that user, after which `get` returns absent.  The code scans redis for
keys matching `ai_response:*userId*`, but every stored key is the prefix
followed by 16 hex characters of a SHA-256 digest — the user id never
appears in a key (here "user-1" contains characters outside the hex
alphabet), so the scan matches nothing, the entry survives, and `get`
still returns it.  Evaluated at the failing input. -/
theorem claim_C5_clear_user_cache_noop :
    redisKeys c5Store ("ai_response:" ++ "*" ++ "user-1" ++ "*") = [] ∧
    ResponseCache.clearUserCache "user-1" c5Store = c5Store ∧
    (ResponseCache.get "hello" "user-1" 1000 (ResponseCache.clearUserCache "user-1" c5Store)).1 =
      some { suggestions := ["Hi there!"], confidence := 4/5, reasoning := none,
             messageType := some "social", timestamp := 1000, ttl := 3600 } :=
  ⟨rfl, rfl, rfl⟩

/-- Validity of a safety check is definitionally emptiness of its issue
list. -/
theorem checkSafety_isValid_isEmpty (s : String) (ctx : ConversationContext) :
    (checkSafety s ctx).isValid = (checkSafety s ctx).issues.isEmpty := rfl

/-- When every suggestion is invalid and unremediable, the filter loop
keeps nothing and (for a nonempty input) accumulates at least one issue. -/
theorem filterSuggestions_discarded (ctx : ConversationContext) :
    ∀ l : List String,
      (∀ s ∈ l, (checkSafety s ctx).isValid = false ∧
                createSafeAlternative s (checkSafety s ctx) ctx = none) →
      (filterSuggestions ctx l).1 = [] ∧ (l ≠ [] → (filterSuggestions ctx l).2 ≠ []) := by
  intro l
  induction l with
  | nil => intro _; exact ⟨rfl, fun hne => absurd rfl hne⟩
  | cons s t ih =>
    intro h
    obtain ⟨hv, ha⟩ := h s (by simp)
    obtain ⟨ih1, _⟩ := ih (fun x hx => h x (by simp [hx]))
    have hissues : (checkSafety s ctx).issues ≠ [] := by
      intro he
      rw [checkSafety_isValid_isEmpty s ctx, he] at hv
      simp at hv
    rcases hfi : filterSuggestions ctx t with ⟨fs, is⟩
    rw [hfi] at ih1
    simp only at ih1
    constructor
    · show (filterSuggestions ctx (s :: t)).1 = []
      simp [filterSuggestions, hfi, hv, ha, ih1]
    · intro _
      show (filterSuggestions ctx (s :: t)).2 ≠ []
      simp [filterSuggestions, hfi, hv, ha]
      intro hemp
      exact absurd hemp hissues

/-- C6 (amended): when every candidate is flagged and discarded, the result
is exactly one fallback drawn from the context-appropriate pool; its
confidence is `max(0.7 × original, 0.3)` — at least 0.3, not at most 0.3 as
the claim stated (`jsConfOr` is the JS `confidence || 0.7` default). -/
theorem claim_C6_all_high_discarded :
    ∀ (response : AIResponse) (ctx : ConversationContext) (rand : Nat),
      response.suggestions ≠ [] →
      (∀ s ∈ response.suggestions,
         (checkSafety s ctx).isValid = false ∧
         createSafeAlternative s (checkSafety s ctx) ctx = none) →
      (validateAndFilter response ctx rand).suggestions = [getFallbackResponse ctx rand] ∧
      getFallbackResponse ctx rand ∈
        (if isProfessionalContext ctx then professionalFallbacks else casualFallbacks) ∧
      (validateAndFilter response ctx rand).confidence =
        max (jsConfOr response.confidence (7/10) * (7/10)) (3/10) := by
  intro resp ctx rand hne h
  obtain ⟨h1, h2⟩ := filterSuggestions_discarded ctx resp.suggestions h
  have h2' := h2 hne
  rcases hfi : filterSuggestions ctx resp.suggestions with ⟨fs, is⟩
  rw [hfi] at h1 h2'
  simp only at h1 h2'
  have hlen : 0 < is.length := List.length_pos.mpr h2'
  refine ⟨?_, ?_, ?_⟩
  · simp [validateAndFilter, hfi, h1]
  · unfold getFallbackResponse
    have h3 : rand % 3 = 0 ∨ rand % 3 = 1 ∨ rand % 3 = 2 := by omega
    by_cases hp : isProfessionalContext ctx <;>
      rcases h3 with h3 | h3 | h3 <;>
        simp [hp, professionalFallbacks, casualFallbacks, h3]
  · simp [validateAndFilter, hfi, h1, hlen]

/-- C6 counterexample: every candidate ("You should kill", matching an
inappropriate-content pattern, severity HIGH) is discarded; the result is
the single professional-pool fallback, but its confidence is
max(0.8 × 0.7, 0.3) = 0.56, not ≤ 0.3 as the claim demands. -/
theorem claim_C6_counterexample :
    (validateAndFilter c6Response professionalContext 0).suggestions =
      ["Thank you for your message."] ∧
    (validateAndFilter c6Response professionalContext 0).confidence = 14/25 ∧
    ¬ ((validateAndFilter c6Response professionalContext 0).confidence ≤ 3/10) := by
  have hfi : filterSuggestions professionalContext ["You should kill"] =
      ([], ["Inappropriate content detected"]) := by decide
  have hfb : getFallbackResponse professionalContext 0 = "Thank you for your message." := by
    decide
  have hconf : (validateAndFilter c6Response professionalContext 0).confidence = 14/25 := by
    simp [validateAndFilter, c6Response, hfi, jsConfOr]
    rw [max_eq_left (by norm_num)]
    norm_num
  refine ⟨?_, hconf, ?_⟩
  · simp [validateAndFilter, c6Response, hfi, hfb]
  · rw [hconf]
    norm_num

/-- Witness for C6 at a concrete all-discarded input. -/
theorem claim_C6_witness :
    (validateAndFilter
      { messageId := "w", suggestions := ["kill"], confidence := 1/2,
        reasoning := none, messageType := none } emptyContext 1).suggestions =
      [getFallbackResponse emptyContext 1] :=
  (claim_C6_all_high_discarded
    { messageId := "w", suggestions := ["kill"], confidence := 1/2,
      reasoning := none, messageType := none } emptyContext 1
    (by decide) (by decide)).1

/-- C10: when a suggestion is flagged with several issues, remediation is
chosen from the first detected issue alone and the remediated text is not
re-checked: a suggestion that is both unprofessional and carries embedded
personal data (HIGH severity) is kept after the lexical substitution rather
than discarded, and one that is both unprofessional and too long is
rewritten but not truncated. -/
theorem claim_C10_first_issue_only :
    ∀ (s : String) (ctx : ConversationContext) (rand : Nat),
      isProfessionalContext ctx = true →
      unprofessionalHit s = true →
      inappropriateHit s = false →
      spamHit s = false →
      ((containsPersonalInfo s = true → 2 ≤ s.length → s.length ≤ 500 →
          (checkSafety s ctx).severity = Severity.high ∧
          createSafeAlternative s (checkSafety s ctx) ctx = some (makeProfessional s) ∧
          (validateAndFilter
              { messageId := "m", suggestions := [s], confidence := 1/2,
                reasoning := none, messageType := none } ctx rand).suggestions =
            [makeProfessional s]) ∧
       (containsPersonalInfo s = false → 500 < s.length →
          createSafeAlternative s (checkSafety s ctx) ctx = some (makeProfessional s))) := by
  intro s ctx rand hprof hunprof hinapp hspam
  have d1 : strIncludes "Unprofessional content for business context" "Inappropriate" = false := by
    decide
  have d2 : strIncludes "Unprofessional content for business context" "personal information" = false := by
    decide
  have d3 : strIncludes "Potential personal information disclosure" "Inappropriate" = false := by
    decide
  have d4 : strIncludes "Potential personal information disclosure" "personal information" = true := by
    decide
  have d5 : strIncludes "Unprofessional content for business context" "Unprofessional" = true := by
    decide
  constructor
  · intro hpi hlen2 hlen500
    have e1 : ¬ (s.length < 2) := by omega
    have e2 : ¬ (s.length > 500) := by omega
    have hcs : checkSafety s ctx =
        { isValid := false,
          issues := ["Unprofessional content for business context",
                     "Potential personal information disclosure"],
          severity := Severity.high } := by
      simp [checkSafety, hinapp, hspam, hprof, hunprof, hpi, e1, e2, d1, d2, d3, d4]
    have hcsa : createSafeAlternative s (checkSafety s ctx) ctx = some (makeProfessional s) := by
      rw [hcs]
      simp [createSafeAlternative, d5]
    have hcsa2 := hcsa
    rw [hcs] at hcsa2
    refine ⟨by rw [hcs], hcsa, ?_⟩
    simp [validateAndFilter, filterSuggestions, hcs, hcsa2]
  · intro hpi hlen
    have e1 : ¬ (s.length < 2) := by omega
    have e3 : s.length > 500 := hlen
    have hcs : checkSafety s ctx =
        { isValid := false,
          issues := ["Unprofessional content for business context", "Response too long"],
          severity := Severity.medium } := by
      simp [checkSafety, hinapp, hspam, hprof, hunprof, hpi, e1, e3, d1, d2, d5]
      decide
    rw [hcs]
    simp [createSafeAlternative, d5]


/-- Witness for C10 at a professional-context suggestion containing an
endearment and an email address. -/
theorem claim_C10_witness :
    (checkSafety "babe my email is ab@cd.ef" professionalContext).severity = Severity.high ∧
    createSafeAlternative "babe my email is ab@cd.ef"
        (checkSafety "babe my email is ab@cd.ef" professionalContext) professionalContext =
      some (makeProfessional "babe my email is ab@cd.ef") ∧
    (validateAndFilter
        { messageId := "m", suggestions := ["babe my email is ab@cd.ef"], confidence := 1/2,
          reasoning := none, messageType := none } professionalContext 0).suggestions =
      [makeProfessional "babe my email is ab@cd.ef"] :=
  (claim_C10_first_issue_only "babe my email is ab@cd.ef" professionalContext 0
      (by decide) (by decide) (by decide) (by decide)).1 (by decide) (by decide) (by decide)

/-- The safety filter never returns an empty suggestion list. -/
theorem validateAndFilter_len (resp : AIResponse) (ctx : ConversationContext) (rand : Nat) :
    1 ≤ (validateAndFilter resp ctx rand).suggestions.length := by
  rcases hfi : filterSuggestions ctx resp.suggestions with ⟨fs, is⟩
  cases fs with
  | nil => simp [validateAndFilter, hfi]
  | cons a l => simp [validateAndFilter, hfi]

/-- A successful association-list lookup returns a member. -/
theorem lookup_mem {st : RedisStore} {k : String} {e : RedisEntry} :
    st.lookup k = some e → (k, e) ∈ st := by
  induction st with
  | nil => intro h; cases h
  | cons kv t ih =>
    obtain ⟨k1, v1⟩ := kv
    intro h
    cases hbk : (k == k1) with
    | true =>
      simp only [List.lookup, hbk] at h
      have hk : k = k1 := by
        have := hbk
        simpa using this
      subst hk
      simp at h
      simp [h]
    | false =>
      simp only [List.lookup, hbk] at h
      exact List.mem_cons_of_mem _ (ih h)

theorem removeKey_sub {st : RedisStore} {k : String} {kv} :
    kv ∈ removeKey st k → kv ∈ st := fun h => (List.mem_filter.mp h).1

/-- Unfolding of ResponseCache.get with its key let-bound. -/
theorem responseCache_get_eq (content userId : String) (nowMs : Nat) (st : RedisStore) :
    ResponseCache.get content userId nowMs st =
      (match redisGet st (ResponseCache.generateCacheKey content userId) nowMs with
       | none => (none, st)
       | some response =>
           if nowMs - response.timestamp > response.ttl * 1000 then
             (none, removeKey st (ResponseCache.generateCacheKey content userId))
           else (some response, st)) := rfl

/-- A cache hit returns the value of some entry of the store. -/
theorem get_fst_mem {content userId : String} {nowMs : Nat} {st : RedisStore} {v} :
    (ResponseCache.get content userId nowMs st).1 = some v → ∃ kv ∈ st, kv.2.value = v := by
  rw [responseCache_get_eq]
  intro h
  rcases hr : redisGet st (ResponseCache.generateCacheKey content userId) nowMs with _ | resp
  · rw [hr] at h
    simp at h
  · rw [hr] at h
    replace h : (if nowMs - resp.timestamp > resp.ttl * 1000 then
        ((none : Option CachedResponse),
         removeKey st (ResponseCache.generateCacheKey content userId))
      else (some resp, st)).1 = some v := h
    unfold redisGet at hr
    rcases Option.bind_eq_some.mp hr with ⟨e, hl, he⟩
    by_cases hexp : nowMs < e.expireAtMs
    · rw [if_pos hexp] at he
      have hev : e.value = resp := by injection he
      by_cases hstale : nowMs - resp.timestamp > resp.ttl * 1000
      · rw [if_pos hstale] at h
        simp at h
      · rw [if_neg hstale] at h
        simp at h
        exact ⟨(ResponseCache.generateCacheKey content userId, e), lookup_mem hl,
               by rw [hev, h]⟩
    · rw [if_neg hexp] at he
      cases he

/-- Lazy expiry only deletes entries, preserving the invariant. -/
theorem get_snd_pres {content userId : String} {nowMs : Nat} {st : RedisStore} :
    storeNonEmptySugg st → storeNonEmptySugg (ResponseCache.get content userId nowMs st).2 := by
  intro hst
  rw [responseCache_get_eq]
  rcases hr : redisGet st (ResponseCache.generateCacheKey content userId) nowMs with _ | resp
  · exact hst
  · show storeNonEmptySugg (if nowMs - resp.timestamp > resp.ttl * 1000 then
        ((none : Option CachedResponse),
         removeKey st (ResponseCache.generateCacheKey content userId))
      else (some resp, st)).2
    by_cases hstale : nowMs - resp.timestamp > resp.ttl * 1000
    · rw [if_pos hstale]
      exact fun kv hkv => hst kv (removeKey_sub hkv)
    · rw [if_neg hstale]
      exact hst

/-- Setting a value with a nonempty suggestion list preserves the
invariant. -/
theorem set_pres {content userId : String} {req : CacheSetReq} {ttl : Option Nat}
    {nowMs : Nat} {st : RedisStore} :
    storeNonEmptySugg st → 1 ≤ req.suggestions.length →
    storeNonEmptySugg (ResponseCache.set content userId req ttl nowMs st) := by
  intro hst hreq kv hkv
  unfold ResponseCache.set redisSetex at hkv
  rcases List.mem_cons.mp hkv with h | h
  · subst h
    exact hreq
  · exact hst kv (removeKey_sub h)

/-- C2 (amended): every value generateResponse actually returns has at
least one suggestion — including malformed model JSON (parse fallback) and
all-unsafe candidates (safety fallback), and cache hits under the invariant
that cached entries (all written from filtered results) are nonempty.  When
the model invocation itself fails, no value is returned at all: the error
propagates to the queue (see the counterexample). -/
theorem claim_C2_nonempty_suggestions :
    ∀ messageId content userId ct sinkPresent hasOnToken model ctx rand nowMs
      (st : RedisStore),
      storeNonEmptySugg st →
      ((∀ r, (generateResponse messageId content userId ct sinkPresent hasOnToken
                model ctx rand nowMs st).result = Except.ok r →
          1 ≤ r.suggestions.length) ∧
       storeNonEmptySugg (generateResponse messageId content userId ct sinkPresent hasOnToken
          model ctx rand nowMs st).store) := by
  intro messageId content userId ct sinkPresent hasOnToken model ctx rand nowMs st hst
  rcases hgot : (ResponseCache.get content userId nowMs st).1 with _ | v
  · rcases model with _ | ⟨parsed, chunks⟩
    · constructor
      · intro r hr
        simp [generateResponse, hgot] at hr
      · simp [generateResponse, hgot]
        exact get_snd_pres hst
    · constructor
      · intro r hr
        simp [generateResponse, hgot] at hr
        rw [← hr]
        exact validateAndFilter_len _ _ _
      · simp [generateResponse, hgot]
        exact set_pres (get_snd_pres hst) (validateAndFilter_len _ _ _)
  · obtain ⟨kv, hkv, hval⟩ := get_fst_mem hgot
    constructor
    · intro r hr
      simp [generateResponse, hgot] at hr
      rw [← hr]
      have := hst kv hkv
      simp [hval] at this
      exact this
    · simp [generateResponse, hgot]
      exact get_snd_pres hst


/-- Witness for C2: concrete run with a malformed-JSON model outcome over
the empty store. -/
theorem claim_C2_witness :
    1 ≤ (validateAndFilter (parseAIResponse ParseOutcome.err "m" (detectMessageType "hi"))
          emptyContext 0).suggestions.length :=
  (claim_C2_nonempty_suggestions "m" "hi" "u" ChatType.individual false false
      (ModelOutcome.ok ParseOutcome.err []) emptyContext 0 0 []
      (fun kv h => absurd h (List.not_mem_nil kv))).1 _ rfl

/-- C2 counterexample: at a concrete input whose model invocation fails,
generateResponse returns no value (it rethrows), so the claim's "even when
the model call fails" case is false as stated. -/
theorem claim_C2_counterexample :
    (generateResponse "m1" "hello" "u1" ChatType.individual false false ModelOutcome.fail
        emptyContext 0 0 []).result = Except.error () := rfl

theorem completesOf_nil : completesOf [] = [] := rfl

theorem completesOf_append (a b : List SinkEvent) :
    completesOf (a ++ b) = completesOf a ++ completesOf b := by
  simp [completesOf]

theorem completesOf_token_map (l : List String) :
    completesOf (l.map SinkEvent.token) = [] := by
  induction l with
  | nil => rfl
  | cons a t ih => simp [completesOf, List.filterMap_cons, ih]

theorem completesOf_complete_single (r : AIResponse) :
    completesOf [SinkEvent.complete r] = [r] := rfl

theorem completesOf_error_single : completesOf [SinkEvent.error] = [] := rfl

theorem errorCount_nil : errorCount [] = 0 := rfl

theorem errorCount_append (a b : List SinkEvent) :
    errorCount (a ++ b) = errorCount a + errorCount b := by
  simp [errorCount, List.countP_append]

theorem errorCount_token_map (l : List String) :
    errorCount (l.map SinkEvent.token) = 0 := by
  induction l with
  | nil => rfl
  | cons a t ih => simp [errorCount, List.countP_cons, ih]

theorem errorCount_complete_single (r : AIResponse) :
    errorCount [SinkEvent.complete r] = 0 := rfl

theorem errorCount_error_single : errorCount [SinkEvent.error] = 1 := rfl

/-- C4 (amended): with a sink supplied, an invocation delivers at most one
onComplete and at most one onError and never both; onError fires exactly
when the model invocation fails; and on a cache miss with a successful
completion, onComplete is delivered only when the sink has an onToken
member, carrying the parsed pre-safety-filter result — not the post-filter
value the call returns (see the counterexample). -/
theorem claim_C4_streaming_events :
    ∀ messageId content userId ct hasOnToken model ctx rand nowMs st,
      ((completesOf (generateResponse messageId content userId ct true hasOnToken model ctx
          rand nowMs st).events).length +
        errorCount (generateResponse messageId content userId ct true hasOnToken model ctx
          rand nowMs st).events ≤ 1) ∧
      ((generateResponse messageId content userId ct true hasOnToken model ctx rand nowMs
          st).result = Except.error () ↔
        errorCount (generateResponse messageId content userId ct true hasOnToken model ctx
          rand nowMs st).events = 1) ∧
      (∀ parsed chunks, model = ModelOutcome.ok parsed chunks →
        (ResponseCache.get content userId nowMs st).1 = none →
        completesOf (generateResponse messageId content userId ct true hasOnToken model ctx
            rand nowMs st).events =
          if hasOnToken then [parseAIResponse parsed messageId (detectMessageType content)]
          else []) := by
  intro messageId content userId ct hasOnToken model ctx rand nowMs st
  rcases hgot : (ResponseCache.get content userId nowMs st).1 with _ | v
  · rcases model with _ | ⟨parsed, chunks⟩
    · refine ⟨?_, ?_, ?_⟩
      · simp [generateResponse, hgot, completesOf_error_single, errorCount_error_single,
              completesOf_nil, errorCount_nil]
      · simp [generateResponse, hgot, completesOf_error_single, errorCount_error_single]
      · intro p c hpc
        cases hpc
    · refine ⟨?_, ?_, ?_⟩
      · cases hasOnToken <;>
          simp [generateResponse, generateWithStreaming, hgot, completesOf_append,
                errorCount_append, completesOf_token_map, errorCount_token_map,
                completesOf_complete_single, errorCount_complete_single,
                completesOf_nil, errorCount_nil]
      · cases hasOnToken <;>
          simp [generateResponse, generateWithStreaming, hgot, completesOf_append,
                errorCount_append, completesOf_token_map, errorCount_token_map,
                completesOf_complete_single, errorCount_complete_single,
                completesOf_nil, errorCount_nil]
      · intro p c hpc hget
        cases hpc
        cases hasOnToken <;>
          simp [generateResponse, generateWithStreaming, hgot, completesOf_append,
                errorCount_append, completesOf_token_map, errorCount_token_map,
                completesOf_complete_single, completesOf_nil]
  · refine ⟨?_, ?_, ?_⟩
    · simp [generateResponse, hgot, completesOf_complete_single, errorCount_complete_single]
    · simp [generateResponse, hgot, completesOf_complete_single, errorCount_complete_single]
    · intro p c hpc hget
      exact Option.noConfusion hget


/-- Witness for C4 at a concrete malformed-JSON streaming run. -/
theorem claim_C4_witness :
    completesOf (generateResponse "m" "hi" "u" ChatType.individual true true
        (ModelOutcome.ok ParseOutcome.err ["x"]) emptyContext 0 0 []).events =
      [parseAIResponse ParseOutcome.err "m" (detectMessageType "hi")] := by
  have h := claim_C4_streaming_events "m" "hi" "u" ChatType.individual true
    (ModelOutcome.ok ParseOutcome.err ["x"]) emptyContext 0 0 []
  simpa using h.2.2 ParseOutcome.err ["x"] rfl rfl

/-- C4 counterexample: a streaming run whose model output is flagged by
the safety filter.  The single onComplete carries the parsed suggestions
(an unsafe text), while the final validated result returned to the caller
holds the fallback — so onComplete does not carry the final validated
(post-safety-filter) result as claimed. -/
theorem claim_C4_counterexample :
    completesOf (generateResponse "m1" "hello" "u1" ChatType.individual true true
        (ModelOutcome.ok c4Parse []) professionalContext 0 0 []).events =
      [parseAIResponse c4Parse "m1" "social"] ∧
    (generateResponse "m1" "hello" "u1" ChatType.individual true true
        (ModelOutcome.ok c4Parse []) professionalContext 0 0 []).result =
      Except.ok (validateAndFilter (parseAIResponse c4Parse "m1" "social")
        professionalContext 0) ∧
    (parseAIResponse c4Parse "m1" "social").suggestions = ["You should kill"] ∧
    (validateAndFilter (parseAIResponse c4Parse "m1" "social") professionalContext 0).suggestions =
      ["Thank you for your message."] := by
  refine ⟨rfl, rfl, rfl, ?_⟩
  have hfi : filterSuggestions professionalContext ["You should kill"] =
      ([], ["Inappropriate content detected"]) := by decide
  have hfb : getFallbackResponse professionalContext 0 = "Thank you for your message." := by decide
  simp [validateAndFilter, parseAIResponse, c4Parse, hfi, hfb]

end Claire
